import Mathlib

/-!
Verification of `mindboggle/utils/ants.py`, a command-construction and
process-invocation layer over the external ANTs toolkit.

Each Python function is embedded as a Lean function that threads an explicit
filesystem oracle (`String → Bool`, telling which paths exist) and records a
trace of the external calls it makes.  The opaque external collaborators —
the effect of `execute` on the filesystem, `transform_to_volume` and
`overwrite_volume_labels` — are fields of a `Sys` record, so every embedded
function is executable once a concrete `Sys` is supplied.

Python-specific semantics embedded explicitly:
  * `os.path.join(a, b)` (posix), `os.path.basename`, `str.split('.')[0]`;
  * truthiness of strings (`if not s:` means `s = ""`) and of the optional
    integer `mask_index` (`if mask_index:` is false for `None` and for `0`);
  * `sys.exit(msg)` raising `SystemExit`;
  * the erroneous call `os.getcwd('temp.nii.gz')` raising `TypeError`
    (`os.getcwd` takes no arguments);
  * `surface_files[0]` on an empty list raising `IndexError`.
-/

/-- Python `s.split(c)` on a list of characters: splits at every occurrence
of `c`; the empty string yields `[""]`. -/
def splitChar (c : Char) : List Char → List (List Char)
  | [] => [[]]
  | x :: xs =>
    if x = c then [] :: splitChar c xs
    else
      match splitChar c xs with
      | [] => [[x]]
      | g :: gs => (x :: g) :: gs

/-- Python `os.path.join a b` for posix paths (two arguments). -/
def pathJoin (a b : String) : String :=
  if b.data.head? = some '/' then b
  else if a = "" ∨ a.data.getLast? = some '/' then a ++ b
  else a ++ "/" ++ b

/-- Python `os.path.basename p` for posix paths: everything after the last slash. -/
def basename (p : String) : String :=
  String.mk ((splitChar '/' p.data).getLastD [])

/-- Python `s.split('.')[0]`: the part of `s` before its first dot. -/
def dotHead (s : String) : String :=
  String.mk ((splitChar '.' s.data).headD [])

/-- Python truthiness of the `mask_index` argument (an optional integer):
`if mask_index:` is false for `None` and for `0`. -/
def pyTruthy (mask_index : Option Int) : Bool :=
  match mask_index with
  | none => false
  | some i => i != 0

/-- The exceptions the module can raise. -/
inductive PyError where
  | ioError : String → PyError
  | systemExit : String → PyError
  | typeError : String → PyError
  | indexError : String → PyError
deriving DecidableEq, Repr

/-- Observable external calls made by the module. -/
inductive Event where
  | exec : List String → Event
  | transformToVolume : String → String → Event
  | overwriteVolumeLabels : String → String → String → List Int → Event
deriving DecidableEq, Repr

instance {ε α : Type} [DecidableEq ε] [DecidableEq α] : DecidableEq (Except ε α) :=
  fun x y =>
    match x, y with
    | Except.ok a, Except.ok b =>
      if h : a = b then Decidable.isTrue (by rw [h])
      else Decidable.isFalse (fun hh => h (Except.ok.inj hh))
    | Except.ok _, Except.error _ => Decidable.isFalse (fun hh => Except.noConfusion hh)
    | Except.error _, Except.ok _ => Decidable.isFalse (fun hh => Except.noConfusion hh)
    | Except.error e, Except.error f =>
      if h : e = f then Decidable.isTrue (by rw [h])
      else Decidable.isFalse (fun hh => h (Except.error.inj hh))

/-- Outcome of running one of the module's functions: the returned value or
the raised exception, the trace of external calls, and the final filesystem. -/
structure Res (α : Type) where
  result : Except PyError α
  trace : List Event
  fs : String → Bool

/-- The ambient system: current working directory, the (opaque) effect of
`execute` on the filesystem, and the two opaque helpers used by
`fill_volume_with_surface_labels`.  `t2v surface volume fs` returns the path
produced by `transform_to_volume` together with the updated filesystem;
`ovlEffect` is the filesystem effect of `overwrite_volume_labels`. -/
structure Sys where
  cwd : String
  runEffect : List String → (String → Bool) → (String → Bool)
  t2v : String → String → (String → Bool) → String × (String → Bool)
  ovlEffect : String → String → String → List Int → (String → Bool) → (String → Bool)

/-- The `if not os.path.exists(f): raise IOError(f + " not found") / return f`
pattern that ends `ImageMath`, `WarpImageMultiTransform` and
`PropagateLabelsThroughMask`. -/
def raiseIfMissing (fs : String → Bool) (tr : List Event) (f : String) : Res String :=
  if fs f then
    { result := Except.ok f, trace := tr, fs := fs }
  else
    { result := Except.error (PyError.ioError (f ++ " not found")), trace := tr, fs := fs }

/-- The `if not name: name = os.path.join(os.getcwd(), dflt)` default-filename
derivation shared by `ImageMath`, `WarpImageMultiTransform` and
`PropagateLabelsThroughMask`. -/
def defaultPath (sys : Sys) (dflt name : String) : String :=
  if name = "" then pathJoin sys.cwd dflt else name

/-- Embedding of `ImageMath` (ants.py lines 13-75). -/
def ImageMath (sys : Sys) (fs : String → Bool)
    (volume1 volume2 operator output_file : String) : Res String :=
  let output_file := defaultPath sys "ImageMath.nii.gz" output_file
  let cmd := ["ImageMath", "3", output_file, operator, volume1, volume2]
  let fs := sys.runEffect cmd fs
  raiseIfMissing fs [Event.exec cmd] output_file

/-- The default `output_stem` derivation of `ANTS` (ants.py lines 122-125). -/
def antsStem (sys : Sys) (source target output_stem : String) : String :=
  if output_stem = "" then
    pathJoin sys.cwd (dotHead (basename source) ++ "_to_" ++ dotHead (basename target))
  else output_stem

/-- The argument list `ANTS` passes to `execute` (ants.py lines 127-130),
with the (possibly defaulted) output stem. -/
def antsCmd (sys : Sys) (source target iterations output_stem : String) : List String :=
  ["ANTS", "3", "-m CC[" ++ target ++ "," ++ source ++ ",1,2]",
   "-r Gauss[2,0]", "-t SyN[0.5] -i", iterations,
   "-o", antsStem sys source target output_stem, "--use-Histogram-Matching",
   "--number-of-affine-iterations 10000x10000x10000x10000x10000"]

/-- Embedding of `ANTS` (ants.py lines 78-145). -/
def ANTS (sys : Sys) (fs : String → Bool)
    (source target iterations output_stem0 : String) :
    Res (String × String × String × String) :=
  let output_stem := antsStem sys source target output_stem0
  let cmd := antsCmd sys source target iterations output_stem0
  let fs := sys.runEffect cmd fs
  let affine_transform := output_stem ++ "Affine.txt"
  let nonlinear_transform := output_stem ++ "Warp.nii.gz"
  let nonlinear_inverse_transform := output_stem ++ "InverseWarp.nii.gz"
  if ¬ fs affine_transform then
    { result := Except.error (PyError.ioError (affine_transform ++ " not found")),
      trace := [Event.exec cmd], fs := fs }
  else if ¬ fs nonlinear_transform then
    { result := Except.error (PyError.ioError (nonlinear_transform ++ " not found")),
      trace := [Event.exec cmd], fs := fs }
  else if ¬ fs nonlinear_inverse_transform then
    { result := Except.error (PyError.ioError (nonlinear_inverse_transform ++ " not found")),
      trace := [Event.exec cmd], fs := fs }
  else
    { result := Except.ok (affine_transform, nonlinear_transform,
                           nonlinear_inverse_transform, output_stem),
      trace := [Event.exec cmd], fs := fs }

/-- The affine transform actually used by `WarpImageMultiTransform`
(ants.py lines 188-189): derived from `xfm_stem` when that is non-empty. -/
def warpAffine (xfm_stem affine_transform : String) : String :=
  if xfm_stem ≠ "" then xfm_stem ++ "Affine.txt" else affine_transform

/-- The nonlinear transform actually used by `WarpImageMultiTransform`
(ants.py lines 190-193). -/
def warpNonlinear (xfm_stem nonlinear_transform : String) (inverse : Bool) : String :=
  if xfm_stem ≠ "" then
    if inverse then xfm_stem ++ "InverseWarp.nii.gz" else xfm_stem ++ "Warp.nii.gz"
  else nonlinear_transform

/-- Body of `WarpImageMultiTransform` after transform-name resolution
(ants.py lines 198-223). -/
def warpBody (sys : Sys) (fs : String → Bool)
    (source target output interp affine_transform nonlinear_transform : String)
    (inverse affine_only : Bool) : Res String :=
  let output := defaultPath sys "WarpImageMultiTransform.nii.gz" output
  let affine_only := if ¬ fs nonlinear_transform then true else affine_only
  let cmd :=
    if affine_only then
      if inverse then
        ["WarpImageMultiTransform", "3", source, output, "-R", target, interp,
         "-i", affine_transform]
      else
        ["WarpImageMultiTransform", "3", source, output, "-R", target, interp,
         affine_transform]
    else
      if inverse then
        ["WarpImageMultiTransform", "3", source, output, "-R", target, interp,
         "-i", affine_transform, nonlinear_transform]
      else
        ["WarpImageMultiTransform", "3", source, output, "-R", target, interp,
         nonlinear_transform, affine_transform]
  let fs := sys.runEffect cmd fs
  raiseIfMissing fs [Event.exec cmd] output

/-- Embedding of `WarpImageMultiTransform` (ants.py lines 148-223).  When
`xfm_stem`, `affine_transform` and `nonlinear_transform` are all empty the
source calls `sys.exit(...)`, embedded as a `SystemExit` outcome. -/
def WarpImageMultiTransform (sys : Sys) (fs : String → Bool)
    (source target output interp xfm_stem affine_transform nonlinear_transform : String)
    (inverse affine_only : Bool) : Res String :=
  if xfm_stem = "" ∧ affine_transform = "" ∧ nonlinear_transform = "" then
    { result := Except.error (PyError.systemExit
        ("Provide either xfm_stem or affine_transform and " ++ "nonlinear_transform.")),
      trace := [], fs := fs }
  else
    warpBody sys fs source target output interp
      (warpAffine xfm_stem affine_transform)
      (warpNonlinear xfm_stem nonlinear_transform inverse)
      inverse affine_only

/-- The binarization step of `PropagateLabelsThroughMask` (ants.py lines
282-288): when `binarize` holds, `ThresholdImage` writes to a temp file whose
name repeats the default output name, and the mask volume is replaced by it.
Returns (new mask volume, events, new filesystem). -/
def binarizeStep (sys : Sys) (fs : String → Bool) (mask_volume : String)
    (binarize : Bool) : String × List Event × (String → Bool) :=
  if binarize then
    let temp_file := pathJoin sys.cwd "PropagateLabelsThroughMask.nii.gz"
    let cmd := ["ThresholdImage", "3", mask_volume, temp_file, "0 1 0 1"]
    (temp_file, [Event.exec cmd], sys.runEffect cmd fs)
  else
    (mask_volume, [], fs)

/-- Embedding of `PropagateLabelsThroughMask` (ants.py lines 226-306).  When
`mask_index` is truthy the source executes `mask = os.getcwd('temp.nii.gz')`;
`os.getcwd` takes no arguments, so that line raises `TypeError` before any
mask-index `ThresholdImage` call is built. -/
def PropagateLabelsThroughMask (sys : Sys) (fs : String → Bool)
    (mask_volume label_volume : String) (mask_index : Option Int)
    (output_file : String) (binarize : Bool) : Res String :=
  let output_file := defaultPath sys "PropagateLabelsThroughMask.nii.gz" output_file
  let bin := binarizeStep sys fs mask_volume binarize
  let mask_volume := bin.1
  let tr := bin.2.1
  let fs := bin.2.2
  if pyTruthy mask_index then
    { result := Except.error (PyError.typeError "getcwd() takes no arguments (1 given)"),
      trace := tr, fs := fs }
  else
    let mask := mask_volume
    let cmd := ["ImageMath", "3", output_file, "PropagateLabelsThroughMask",
                mask, label_volume]
    let fs := sys.runEffect cmd fs
    raiseIfMissing fs (tr ++ [Event.exec cmd]) output_file

/-- Tail of `fill_volume_with_surface_labels` (ants.py lines 380-387): the
call to `PropagateLabelsThroughMask` followed by the final existence check. -/
def fillTail (sys : Sys) (fs : String → Bool)
    (volume_mask surface_in_volume : String) (mask_index : Option Int)
    (output_file : String) (binarize : Bool) (evs : List Event) : Res String :=
  let p := PropagateLabelsThroughMask sys fs volume_mask surface_in_volume
             mask_index output_file binarize
  match p.result with
  | Except.error e => { result := Except.error e, trace := evs ++ p.trace, fs := p.fs }
  | Except.ok out =>
    if p.fs out then
      { result := Except.ok out, trace := evs ++ p.trace, fs := p.fs }
    else
      { result := Except.error (PyError.ioError (out ++ " not found")),
        trace := evs ++ p.trace, fs := p.fs }

/-- Embedding of `fill_volume_with_surface_labels` (ants.py lines 309-387).
`surface_files` may be a single string or a list of strings, modelled by a
sum; a single string is wrapped into a one-element list (line 364-365).
Indexing `surface_files[0]` on an empty list raises `IndexError`. -/
def fill_volume_with_surface_labels (sys : Sys) (fs : String → Bool)
    (volume_mask : String) (surface_files : Sum String (List String))
    (mask_index : Option Int) (output_file : String) (binarize : Bool) : Res String :=
  let sfs := match surface_files with
    | Sum.inl s => [s]
    | Sum.inr l => l
  match sfs with
  | [] =>
    { result := Except.error (PyError.indexError "list index out of range"),
      trace := [], fs := fs }
  | s0 :: rest =>
    let t1 := sys.t2v s0 volume_mask fs
    let surface_in_volume := t1.1
    let fs := t1.2
    if sfs.length = 2 then
      let surfaces_in_volume := pathJoin sys.cwd "surfaces.nii.gz"
      let s1 := rest.headD ""
      let t2 := sys.t2v s1 volume_mask fs
      let surface_in_volume2 := t2.1
      let fs := t2.2
      let fs := sys.ovlEffect surface_in_volume surface_in_volume2 surfaces_in_volume [0] fs
      fillTail sys fs volume_mask surfaces_in_volume mask_index output_file binarize
        [Event.transformToVolume s0 volume_mask,
         Event.transformToVolume s1 volume_mask,
         Event.overwriteVolumeLabels surface_in_volume surface_in_volume2
           surfaces_in_volume [0]]
    else
      fillTail sys fs volume_mask surface_in_volume mask_index output_file binarize
        [Event.transformToVolume s0 volume_mask]

/-! ## Basic lemmas about the shared helpers -/

@[simp]
theorem raiseIfMissing_fs (fs : String → Bool) (tr : List Event) (f : String) :
    (raiseIfMissing fs tr f).fs = fs := by
  unfold raiseIfMissing; split <;> rfl

@[simp]
theorem raiseIfMissing_trace (fs : String → Bool) (tr : List Event) (f : String) :
    (raiseIfMissing fs tr f).trace = tr := by
  unfold raiseIfMissing; split <;> rfl

theorem raiseIfMissing_result (fs : String → Bool) (tr : List Event) (f : String) :
    (raiseIfMissing fs tr f).result =
      if fs f then Except.ok f
      else Except.error (PyError.ioError (f ++ " not found")) := by
  unfold raiseIfMissing; split <;> simp [*]

theorem raiseIfMissing_ok_or_error (fs : String → Bool) (tr : List Event) (f : String) :
    (raiseIfMissing fs tr f).result = Except.ok f
    ∨ (raiseIfMissing fs tr f).result =
        Except.error (PyError.ioError (f ++ " not found")) := by
  unfold raiseIfMissing; split <;> simp

theorem raiseIfMissing_result_ok (fs : String → Bool) (tr : List Event) (f out : String)
    (h : (raiseIfMissing fs tr f).result = Except.ok out) : out = f ∧ fs f = true := by
  rw [raiseIfMissing_result] at h
  by_cases hf : fs f = true
  · simp [hf] at h
    exact ⟨h.symm, hf⟩
  · simp [Bool.not_eq_true] at hf
    simp [hf] at h

/-! ## Concrete systems used to evaluate the embeddings -/

/-- Filesystem oracle on which every path exists. -/
def fsAll : String → Bool := fun _ => true

/-- Filesystem oracle on which no path exists. -/
def fsEmpty : String → Bool := fun _ => false

/-- A concrete system: working directory `/work`, an `execute` with no
filesystem effect, `transform_to_volume` returning `surface ++ ".nii.gz"`,
and an effect-free `overwrite_volume_labels`. -/
def sysT : Sys where
  cwd := "/work"
  runEffect := fun _ f => f
  t2v := fun s _ f => (s ++ ".nii.gz", f)
  ovlEffect := fun _ _ _ _ f => f

/-! ## Claim theorems -/

/-- Claim C10: calling `PropagateLabelsThroughMask` with `mask_index = 0`
behaves identically to calling it with `mask_index = None`: the Python guard
`if mask_index:` is false in both cases, so no mask-index `ThresholdImage`
step runs and labels propagate through the (possibly binarized) mask volume
itself. -/
theorem pltm_mask_index_zero_eq_none (sys : Sys) (fs : String → Bool)
    (mask_volume label_volume output_file : String) (binarize : Bool) :
    PropagateLabelsThroughMask sys fs mask_volume label_volume (some 0) output_file binarize
      = PropagateLabelsThroughMask sys fs mask_volume label_volume none output_file binarize := rfl

/-- Claim C5: the argument list `ImageMath` passes to `execute` is exactly
`['ImageMath', '3', output_file, operator, volume1, volume2]` with
`output_file` the (possibly defaulted) output path, and that is the only
external call. -/
theorem imageMath_cmd (sys : Sys) (fs : String → Bool)
    (volume1 volume2 operator output_file : String) :
    (ImageMath sys fs volume1 volume2 operator output_file).trace =
      [Event.exec ["ImageMath", "3", defaultPath sys "ImageMath.nii.gz" output_file,
                   operator, volume1, volume2]] := by
  simp [ImageMath]

/-- Claim C3: with `output_file = ''`, `ImageMath` derives its output path as
the current working directory joined with `ImageMath.nii.gz`, uses it in the
command and returns it (on success); a non-empty `output_file` is used and
returned unchanged. -/
theorem imageMath_default_output (sys : Sys) (fs : String → Bool)
    (volume1 volume2 operator output_file : String) :
    defaultPath sys "ImageMath.nii.gz" "" = pathJoin sys.cwd "ImageMath.nii.gz"
    ∧ (output_file ≠ "" → defaultPath sys "ImageMath.nii.gz" output_file = output_file)
    ∧ (ImageMath sys fs volume1 volume2 operator output_file).trace =
        [Event.exec ["ImageMath", "3", defaultPath sys "ImageMath.nii.gz" output_file,
                     operator, volume1, volume2]]
    ∧ (ImageMath sys fs volume1 volume2 operator output_file).result =
        (if (ImageMath sys fs volume1 volume2 operator output_file).fs
              (defaultPath sys "ImageMath.nii.gz" output_file) then
           Except.ok (defaultPath sys "ImageMath.nii.gz" output_file)
         else
           Except.error (PyError.ioError
             (defaultPath sys "ImageMath.nii.gz" output_file ++ " not found"))) := by
  refine ⟨rfl, fun h => by simp [defaultPath, h], by simp [ImageMath], ?_⟩
  simp [ImageMath, raiseIfMissing_result, raiseIfMissing_fs]

/-- Witness for C3: the default and the pass-through output path, evaluated
on a concrete system. -/
theorem imageMath_default_output_witness :
    ("out.nii.gz" ≠ "")
    ∧ defaultPath sysT "ImageMath.nii.gz" "out.nii.gz" = "out.nii.gz"
    ∧ (ImageMath sysT fsAll "a.nii.gz" "b.nii.gz" "m" "").result
        = Except.ok "/work/ImageMath.nii.gz" := by
  refine ⟨by decide, ?_, ?_⟩
  · exact (imageMath_default_output sysT fsAll "a.nii.gz" "b.nii.gz" "m"
      "out.nii.gz").2.1 (by decide)
  · exact ((imageMath_default_output sysT fsAll "a.nii.gz" "b.nii.gz" "m" "").2.2.2).trans
      (by decide)

/-! ## Characterization lemmas -/

theorem ANTS_fs (sys : Sys) (fs : String → Bool)
    (source target iterations output_stem : String) :
    (ANTS sys fs source target iterations output_stem).fs
      = sys.runEffect (antsCmd sys source target iterations output_stem) fs := by
  simp only [ANTS]
  repeat' split
  all_goals rfl

theorem ANTS_trace (sys : Sys) (fs : String → Bool)
    (source target iterations output_stem : String) :
    (ANTS sys fs source target iterations output_stem).trace
      = [Event.exec (antsCmd sys source target iterations output_stem)] := by
  simp only [ANTS]
  repeat' split
  all_goals rfl

theorem ANTS_result (sys : Sys) (fs : String → Bool)
    (source target iterations output_stem : String) :
    (ANTS sys fs source target iterations output_stem).result =
      (let fs1 := sys.runEffect (antsCmd sys source target iterations output_stem) fs
       let st := antsStem sys source target output_stem
       if ¬ fs1 (st ++ "Affine.txt") then
         Except.error (PyError.ioError (st ++ "Affine.txt" ++ " not found"))
       else if ¬ fs1 (st ++ "Warp.nii.gz") then
         Except.error (PyError.ioError (st ++ "Warp.nii.gz" ++ " not found"))
       else if ¬ fs1 (st ++ "InverseWarp.nii.gz") then
         Except.error (PyError.ioError (st ++ "InverseWarp.nii.gz" ++ " not found"))
       else Except.ok (st ++ "Affine.txt", st ++ "Warp.nii.gz",
                       st ++ "InverseWarp.nii.gz", st)) := by
  simp only [ANTS]
  repeat' split
  all_goals simp_all

theorem warpBody_result (sys : Sys) (fs : String → Bool)
    (source target output interp affine_transform nonlinear_transform : String)
    (inverse affine_only : Bool) :
    (warpBody sys fs source target output interp affine_transform nonlinear_transform
        inverse affine_only).result =
      if (warpBody sys fs source target output interp affine_transform nonlinear_transform
            inverse affine_only).fs (defaultPath sys "WarpImageMultiTransform.nii.gz" output)
      then Except.ok (defaultPath sys "WarpImageMultiTransform.nii.gz" output)
      else Except.error (PyError.ioError
        (defaultPath sys "WarpImageMultiTransform.nii.gz" output ++ " not found")) := by
  simp only [warpBody, raiseIfMissing_result, raiseIfMissing_fs]

/-- Claim C1: after invoking the external command, `ImageMath`, `ANTS`,
`WarpImageMultiTransform` and `PropagateLabelsThroughMask` each check that
every expected output file exists on disk; a missing file raises
`IOError (path ++ " not found")` and otherwise the output path(s) are
returned.  For `WarpImageMultiTransform` the command is invoked provided a
transform argument was given (`hW`), and for `PropagateLabelsThroughMask`
provided `mask_index` is not truthy (`hP`). -/
theorem output_existence_checks (sys : Sys) (fs : String → Bool)
    (v1 v2 op o1 : String)
    (src tgt iters stem : String)
    (s2 t2 o2 itp xs af nl : String) (inv aon : Bool)
    (mv lv o3 : String) (mi : Option Int) (b : Bool)
    (hW : ¬(xs = "" ∧ af = "" ∧ nl = ""))
    (hP : pyTruthy mi = false) :
    ((ImageMath sys fs v1 v2 op o1).result =
       if (ImageMath sys fs v1 v2 op o1).fs (defaultPath sys "ImageMath.nii.gz" o1) then
         Except.ok (defaultPath sys "ImageMath.nii.gz" o1)
       else Except.error (PyError.ioError
         (defaultPath sys "ImageMath.nii.gz" o1 ++ " not found")))
    ∧ ((ANTS sys fs src tgt iters stem).result =
       if ¬ (ANTS sys fs src tgt iters stem).fs (antsStem sys src tgt stem ++ "Affine.txt") then
         Except.error (PyError.ioError (antsStem sys src tgt stem ++ "Affine.txt" ++ " not found"))
       else if ¬ (ANTS sys fs src tgt iters stem).fs (antsStem sys src tgt stem ++ "Warp.nii.gz") then
         Except.error (PyError.ioError (antsStem sys src tgt stem ++ "Warp.nii.gz" ++ " not found"))
       else if ¬ (ANTS sys fs src tgt iters stem).fs (antsStem sys src tgt stem ++ "InverseWarp.nii.gz") then
         Except.error (PyError.ioError (antsStem sys src tgt stem ++ "InverseWarp.nii.gz" ++ " not found"))
       else Except.ok (antsStem sys src tgt stem ++ "Affine.txt",
                       antsStem sys src tgt stem ++ "Warp.nii.gz",
                       antsStem sys src tgt stem ++ "InverseWarp.nii.gz",
                       antsStem sys src tgt stem))
    ∧ ((WarpImageMultiTransform sys fs s2 t2 o2 itp xs af nl inv aon).result =
       if (WarpImageMultiTransform sys fs s2 t2 o2 itp xs af nl inv aon).fs
            (defaultPath sys "WarpImageMultiTransform.nii.gz" o2) then
         Except.ok (defaultPath sys "WarpImageMultiTransform.nii.gz" o2)
       else Except.error (PyError.ioError
         (defaultPath sys "WarpImageMultiTransform.nii.gz" o2 ++ " not found")))
    ∧ ((PropagateLabelsThroughMask sys fs mv lv mi o3 b).result =
       if (PropagateLabelsThroughMask sys fs mv lv mi o3 b).fs
            (defaultPath sys "PropagateLabelsThroughMask.nii.gz" o3) then
         Except.ok (defaultPath sys "PropagateLabelsThroughMask.nii.gz" o3)
       else Except.error (PyError.ioError
         (defaultPath sys "PropagateLabelsThroughMask.nii.gz" o3 ++ " not found"))) := by
  refine ⟨?_, ?_, ?_, ?_⟩
  · simp only [ImageMath, raiseIfMissing_result, raiseIfMissing_fs]
  · rw [ANTS_result, ANTS_fs]
  · simp only [WarpImageMultiTransform, if_neg hW]
    rw [warpBody_result]
  · simp only [PropagateLabelsThroughMask, hP, if_false, Bool.false_eq_true,
      raiseIfMissing_result, raiseIfMissing_fs]

/-- Witness for C1: both hypotheses hold at concrete inputs, and the
postcondition check is evaluated on a concrete system, in both the
return and the raise direction. -/
theorem output_existence_checks_witness :
    (¬("stemX" = "" ∧ "" = "" ∧ "" = ""))
    ∧ pyTruthy none = false
    ∧ (ImageMath sysT fsAll "a.nii.gz" "b.nii.gz" "m" "o.nii.gz").result = Except.ok "o.nii.gz"
    ∧ (PropagateLabelsThroughMask sysT fsEmpty "mv.nii.gz" "lv.nii.gz" none "" false).result
        = Except.error (PyError.ioError "/work/PropagateLabelsThroughMask.nii.gz not found") := by
  refine ⟨by decide, rfl, ?_, ?_⟩
  · exact ((output_existence_checks sysT fsAll "a.nii.gz" "b.nii.gz" "m" "o.nii.gz"
      "s" "t" "30x99x11" "" "s2" "t2" "" "--use-NN" "stemX" "" "" false false
      "mv.nii.gz" "lv.nii.gz" "" none false (by decide) rfl).1).trans (by decide)
  · exact ((output_existence_checks sysT fsEmpty "a.nii.gz" "b.nii.gz" "m" "o.nii.gz"
      "s" "t" "30x99x11" "" "s2" "t2" "" "--use-NN" "stemX" "" "" false false
      "mv.nii.gz" "lv.nii.gz" "" none false (by decide) rfl).2.2.2).trans (by decide)

/-- Claim C4: with `output_stem = ''`, `ANTS` derives the stem as the current
working directory joined with (basename of source up to its first dot) ++
`_to_` ++ (basename of target up to its first dot); the command uses the
derived stem, and on success the function returns
`stem ++ Affine.txt`, `stem ++ Warp.nii.gz`, `stem ++ InverseWarp.nii.gz`
and `stem`, in that order. -/
theorem ants_default_stem_and_returns (sys : Sys) (fs : String → Bool)
    (source target iterations output_stem : String) :
    antsStem sys source target "" =
      pathJoin sys.cwd (dotHead (basename source) ++ "_to_" ++ dotHead (basename target))
    ∧ (ANTS sys fs source target iterations output_stem).trace =
        [Event.exec (antsCmd sys source target iterations output_stem)]
    ∧ ((ANTS sys fs source target iterations output_stem).fs
         (antsStem sys source target output_stem ++ "Affine.txt") = true →
       (ANTS sys fs source target iterations output_stem).fs
         (antsStem sys source target output_stem ++ "Warp.nii.gz") = true →
       (ANTS sys fs source target iterations output_stem).fs
         (antsStem sys source target output_stem ++ "InverseWarp.nii.gz") = true →
       (ANTS sys fs source target iterations output_stem).result =
         Except.ok (antsStem sys source target output_stem ++ "Affine.txt",
                    antsStem sys source target output_stem ++ "Warp.nii.gz",
                    antsStem sys source target output_stem ++ "InverseWarp.nii.gz",
                    antsStem sys source target output_stem)) := by
  refine ⟨by simp [antsStem], ANTS_trace sys fs source target iterations output_stem, ?_⟩
  intro h1 h2 h3
  rw [ANTS_fs] at h1 h2 h3
  rw [ANTS_result]
  simp [h1, h2, h3]

/-- Witness for C4: the derived stem and the four returned values, evaluated
on a concrete system where all expected outputs exist. -/
theorem ants_default_stem_witness :
    antsStem sysT "/data/t1w.nii.gz" "/atlas/MNI152.nii.gz" "" = "/work/t1w_to_MNI152"
    ∧ (ANTS sysT fsAll "/data/t1w.nii.gz" "/atlas/MNI152.nii.gz" "0" "").result
        = Except.ok ("/work/t1w_to_MNI152Affine.txt", "/work/t1w_to_MNI152Warp.nii.gz",
                     "/work/t1w_to_MNI152InverseWarp.nii.gz", "/work/t1w_to_MNI152") := by
  refine ⟨by decide, ?_⟩
  exact ((ants_default_stem_and_returns sysT fsAll "/data/t1w.nii.gz" "/atlas/MNI152.nii.gz"
    "0" "").2.2 (by decide) (by decide) (by decide)).trans (by decide)

/-- Claim C9: if the (derived) nonlinear transform file does not exist when
`WarpImageMultiTransform` is called, the constructed command is the
affine-only one — even though the caller passed `affine_only = False` — and
no error is raised for the missing nonlinear transform: the outcome is the
output path or an `IOError` about the output file only. -/
theorem warp_missing_nonlinear_affine_only (sys : Sys) (fs : String → Bool)
    (source target o itp xs af nl : String) (inv : Bool)
    (hW : ¬(xs = "" ∧ af = "" ∧ nl = ""))
    (hmiss : fs (warpNonlinear xs nl inv) = false) :
    (WarpImageMultiTransform sys fs source target o itp xs af nl inv false).trace =
      [Event.exec (if inv then
         ["WarpImageMultiTransform", "3", source,
          defaultPath sys "WarpImageMultiTransform.nii.gz" o, "-R", target, itp,
          "-i", warpAffine xs af]
       else
         ["WarpImageMultiTransform", "3", source,
          defaultPath sys "WarpImageMultiTransform.nii.gz" o, "-R", target, itp,
          warpAffine xs af])]
    ∧ ((WarpImageMultiTransform sys fs source target o itp xs af nl inv false).result =
         Except.ok (defaultPath sys "WarpImageMultiTransform.nii.gz" o)
       ∨ (WarpImageMultiTransform sys fs source target o itp xs af nl inv false).result =
         Except.error (PyError.ioError
           (defaultPath sys "WarpImageMultiTransform.nii.gz" o ++ " not found"))) := by
  constructor
  · simp only [WarpImageMultiTransform, if_neg hW, warpBody, hmiss, raiseIfMissing_trace]
    simp
  · simp only [WarpImageMultiTransform, if_neg hW, warpBody]
    exact raiseIfMissing_ok_or_error _ _ _

/-- Witness for C9: with a stem whose `Warp.nii.gz` is absent and
`affine_only = False`, the concrete command contains only the affine
transform. -/
theorem warp_missing_nonlinear_witness :
    (¬("stemX" = "" ∧ "" = "" ∧ "" = ""))
    ∧ fsEmpty (warpNonlinear "stemX" "" false) = false
    ∧ (WarpImageMultiTransform sysT fsEmpty "s.nii.gz" "t.nii.gz" "" "--use-NN"
         "stemX" "" "" false false).trace
        = [Event.exec ["WarpImageMultiTransform", "3", "s.nii.gz",
            "/work/WarpImageMultiTransform.nii.gz", "-R", "t.nii.gz", "--use-NN",
            "stemXAffine.txt"]] := by
  refine ⟨by decide, rfl, ?_⟩
  exact ((warp_missing_nonlinear_affine_only sysT fsEmpty "s.nii.gz" "t.nii.gz" ""
    "--use-NN" "stemX" "" "" false (by decide) rfl).1).trans (by decide)

/-- Claim C8: with `output_file = ''` and `binarize = True`,
`PropagateLabelsThroughMask` writes the binarized mask to a temp path that is
identical to the defaulted output path (cwd joined with
`PropagateLabelsThroughMask.nii.gz`), so the binarized mask and the final
labeled output go to the same file: the `ThresholdImage` output argument and
the `ImageMath` output argument (and its mask argument) are all that path. -/
theorem pltm_binarize_temp_is_default_output (sys : Sys) (fs : String → Bool)
    (mask_volume label_volume : String) (mask_index : Option Int)
    (hP : pyTruthy mask_index = false) :
    defaultPath sys "PropagateLabelsThroughMask.nii.gz" "" =
      pathJoin sys.cwd "PropagateLabelsThroughMask.nii.gz"
    ∧ (PropagateLabelsThroughMask sys fs mask_volume label_volume mask_index "" true).trace =
      [Event.exec ["ThresholdImage", "3", mask_volume,
         pathJoin sys.cwd "PropagateLabelsThroughMask.nii.gz", "0 1 0 1"],
       Event.exec ["ImageMath", "3", pathJoin sys.cwd "PropagateLabelsThroughMask.nii.gz",
         "PropagateLabelsThroughMask", pathJoin sys.cwd "PropagateLabelsThroughMask.nii.gz",
         label_volume]] := by
  refine ⟨by simp [defaultPath], ?_⟩
  simp [PropagateLabelsThroughMask, binarizeStep, hP, defaultPath, raiseIfMissing_trace]

/-- Witness for C8: concrete trace showing the shared file name. -/
theorem pltm_binarize_temp_witness :
    pyTruthy none = false
    ∧ (PropagateLabelsThroughMask sysT fsAll "m.nii.gz" "l.nii.gz" none "" true).trace =
      [Event.exec ["ThresholdImage", "3", "m.nii.gz",
         "/work/PropagateLabelsThroughMask.nii.gz", "0 1 0 1"],
       Event.exec ["ImageMath", "3", "/work/PropagateLabelsThroughMask.nii.gz",
         "PropagateLabelsThroughMask", "/work/PropagateLabelsThroughMask.nii.gz",
         "l.nii.gz"]] := by
  refine ⟨rfl, ?_⟩
  exact ((pltm_binarize_temp_is_default_output sysT fsAll "m.nii.gz" "l.nii.gz"
    none rfl).2).trans (by decide)

/-- Claim C6 (code bug): with a truthy `mask_index`, reaching the mask-index
branch executes `mask = os.getcwd('temp.nii.gz')` (ants.py line 292);
`os.getcwd` takes no arguments, so the call raises `TypeError` and no
mask-index `ThresholdImage` command is ever issued — the trace contains only
the binarization command.  The docstring's intent (mask with just voxels
having the `mask_index` value via `ThresholdImage`) is never realized. -/
theorem pltm_mask_index_typeerror :
    (PropagateLabelsThroughMask sysT fsAll "mask.nii.gz" "labels.nii.gz" (some 1) "" true).result
      = Except.error (PyError.typeError "getcwd() takes no arguments (1 given)")
    ∧ (PropagateLabelsThroughMask sysT fsAll "mask.nii.gz" "labels.nii.gz" (some 1) "" true).trace
      = [Event.exec ["ThresholdImage", "3", "mask.nii.gz",
          "/work/PropagateLabelsThroughMask.nii.gz", "0 1 0 1"]] := by
  exact ⟨by decide, by decide⟩

theorem PropagateLabelsThroughMask_ok_fs (sys : Sys) (fs : String → Bool)
    (mask_volume label_volume : String) (mask_index : Option Int)
    (output_file : String) (binarize : Bool) (out : String)
    (h : (PropagateLabelsThroughMask sys fs mask_volume label_volume mask_index
            output_file binarize).result = Except.ok out) :
    (PropagateLabelsThroughMask sys fs mask_volume label_volume mask_index
        output_file binarize).fs out = true := by
  by_cases hmi : pyTruthy mask_index = true
  · simp [PropagateLabelsThroughMask, hmi] at h
  · have hmi' : pyTruthy mask_index = false := by
      simpa using hmi
    simp only [PropagateLabelsThroughMask, hmi', Bool.false_eq_true, if_false] at h ⊢
    obtain ⟨hout, hfs⟩ := raiseIfMissing_result_ok _ _ _ _ h
    rw [raiseIfMissing_fs, hout]
    exact hfs

theorem fillTail_res (sys : Sys) (fs : String → Bool)
    (volume_mask surface_in_volume : String) (mask_index : Option Int)
    (output_file : String) (binarize : Bool) (evs : List Event) :
    fillTail sys fs volume_mask surface_in_volume mask_index output_file binarize evs =
      { result := (PropagateLabelsThroughMask sys fs volume_mask surface_in_volume
                     mask_index output_file binarize).result,
        trace := evs ++ (PropagateLabelsThroughMask sys fs volume_mask surface_in_volume
                     mask_index output_file binarize).trace,
        fs := (PropagateLabelsThroughMask sys fs volume_mask surface_in_volume
                 mask_index output_file binarize).fs } := by
  cases hp : (PropagateLabelsThroughMask sys fs volume_mask surface_in_volume
      mask_index output_file binarize).result with
  | error e => simp [fillTail, hp]
  | ok out =>
    have hfs := PropagateLabelsThroughMask_ok_fs sys fs volume_mask surface_in_volume
      mask_index output_file binarize out hp
    simp [fillTail, hp, hfs]

/-- Claim C7: `fill_volume_with_surface_labels` with a single string behaves
exactly as with the one-element list; with one surface, exactly that surface
is transformed to the volume grid and handed to label propagation; with two
surfaces, both are transformed, merged into `surfaces.nii.gz` by
`overwrite_volume_labels` with `ignore_labels = [0]`, and that merged volume
is propagated; in each case the result of `PropagateLabelsThroughMask` is
returned. -/
theorem fill_surface_cases (sys : Sys) (fs : String → Bool)
    (volume_mask s s1 s2 : String) (mask_index : Option Int)
    (output_file : String) (binarize : Bool) :
    (fill_volume_with_surface_labels sys fs volume_mask (Sum.inl s)
        mask_index output_file binarize
      = fill_volume_with_surface_labels sys fs volume_mask (Sum.inr [s])
          mask_index output_file binarize)
    ∧ (fill_volume_with_surface_labels sys fs volume_mask (Sum.inr [s])
          mask_index output_file binarize =
        { result := (PropagateLabelsThroughMask sys (sys.t2v s volume_mask fs).2
                       volume_mask (sys.t2v s volume_mask fs).1 mask_index
                       output_file binarize).result,
          trace := Event.transformToVolume s volume_mask ::
                     (PropagateLabelsThroughMask sys (sys.t2v s volume_mask fs).2
                       volume_mask (sys.t2v s volume_mask fs).1 mask_index
                       output_file binarize).trace,
          fs := (PropagateLabelsThroughMask sys (sys.t2v s volume_mask fs).2
                   volume_mask (sys.t2v s volume_mask fs).1 mask_index
                   output_file binarize).fs })
    ∧ (fill_volume_with_surface_labels sys fs volume_mask (Sum.inr [s1, s2])
          mask_index output_file binarize =
        (let t1 := sys.t2v s1 volume_mask fs
         let t2 := sys.t2v s2 volume_mask t1.2
         let sv := pathJoin sys.cwd "surfaces.nii.gz"
         let fs3 := sys.ovlEffect t1.1 t2.1 sv [0] t2.2
         { result := (PropagateLabelsThroughMask sys fs3 volume_mask sv mask_index
                        output_file binarize).result,
           trace := Event.transformToVolume s1 volume_mask ::
                      Event.transformToVolume s2 volume_mask ::
                      Event.overwriteVolumeLabels t1.1 t2.1 sv [0] ::
                      (PropagateLabelsThroughMask sys fs3 volume_mask sv mask_index
                        output_file binarize).trace,
           fs := (PropagateLabelsThroughMask sys fs3 volume_mask sv mask_index
                    output_file binarize).fs })) := by
  refine ⟨rfl, ?_, ?_⟩
  · simp [fill_volume_with_surface_labels, fillTail_res]
  · simp [fill_volume_with_surface_labels, fillTail_res]

theorem raiseIfMissing_error_shape (fs : String → Bool) (tr : List Event)
    (f : String) (e : PyError)
    (h : (raiseIfMissing fs tr f).result = Except.error e) :
    e = PyError.ioError (f ++ " not found") := by
  rw [raiseIfMissing_result] at h
  by_cases hf : fs f = true
  · simp [hf] at h
  · have hf' : fs f = false := by simpa using hf
    simp [hf'] at h
    exact h.symm

theorem ImageMath_error_shape (sys : Sys) (fs : String → Bool)
    (v1 v2 op o : String) (e : PyError)
    (h : (ImageMath sys fs v1 v2 op o).result = Except.error e) :
    ∃ p, e = PyError.ioError (p ++ " not found") :=
  ⟨_, raiseIfMissing_error_shape _ _ _ _ h⟩

theorem ANTS_error_shape (sys : Sys) (fs : String → Bool)
    (src tgt iters stem : String) (e : PyError)
    (h : (ANTS sys fs src tgt iters stem).result = Except.error e) :
    ∃ p, e = PyError.ioError (p ++ " not found") := by
  rw [ANTS_result] at h
  dsimp only at h
  split at h
  · exact ⟨_, (Except.error.inj h).symm⟩
  · split at h
    · exact ⟨_, (Except.error.inj h).symm⟩
    · split at h
      · exact ⟨_, (Except.error.inj h).symm⟩
      · exact absurd h (fun hh => Except.noConfusion hh)

theorem WarpImageMultiTransform_error_shape (sys : Sys) (fs : String → Bool)
    (source target o itp xs af nl : String) (inv aon : Bool) (e : PyError)
    (h : (WarpImageMultiTransform sys fs source target o itp xs af nl inv aon).result
           = Except.error e) :
    (∃ p, e = PyError.ioError (p ++ " not found"))
    ∨ (e = PyError.systemExit
          ("Provide either xfm_stem or affine_transform and " ++ "nonlinear_transform.")
        ∧ xs = "" ∧ af = "" ∧ nl = "") := by
  by_cases hx : xs = "" ∧ af = "" ∧ nl = ""
  · right
    simp only [WarpImageMultiTransform, if_pos hx] at h
    exact ⟨(Except.error.inj h).symm, hx⟩
  · left
    simp only [WarpImageMultiTransform, if_neg hx, warpBody] at h
    exact ⟨_, raiseIfMissing_error_shape _ _ _ _ h⟩

theorem PropagateLabelsThroughMask_error_shape (sys : Sys) (fs : String → Bool)
    (mv lv : String) (mi : Option Int) (o : String) (b : Bool) (e : PyError)
    (h : (PropagateLabelsThroughMask sys fs mv lv mi o b).result = Except.error e) :
    (∃ p, e = PyError.ioError (p ++ " not found"))
    ∨ (e = PyError.typeError "getcwd() takes no arguments (1 given)"
        ∧ pyTruthy mi = true) := by
  by_cases hmi : pyTruthy mi = true
  · right
    simp only [PropagateLabelsThroughMask, hmi, if_true] at h
    exact ⟨(Except.error.inj h).symm, hmi⟩
  · left
    have hmi' : pyTruthy mi = false := by simpa using hmi
    simp only [PropagateLabelsThroughMask, hmi', Bool.false_eq_true, if_false] at h
    exact ⟨_, raiseIfMissing_error_shape _ _ _ _ h⟩

theorem fillTail_error_shape (sys : Sys) (fs : String → Bool)
    (vm siv : String) (mi : Option Int) (o : String) (b : Bool)
    (evs : List Event) (e : PyError)
    (h : (fillTail sys fs vm siv mi o b evs).result = Except.error e) :
    (∃ p, e = PyError.ioError (p ++ " not found"))
    ∨ (e = PyError.typeError "getcwd() takes no arguments (1 given)"
        ∧ pyTruthy mi = true) := by
  rw [fillTail_res] at h
  exact PropagateLabelsThroughMask_error_shape sys fs vm siv mi o b e h

theorem fill_error_shape (sys : Sys) (fs : String → Bool)
    (vm : String) (sf : Sum String (List String)) (mi : Option Int)
    (o : String) (b : Bool) (e : PyError)
    (h : (fill_volume_with_surface_labels sys fs vm sf mi o b).result
           = Except.error e) :
    (∃ p, e = PyError.ioError (p ++ " not found"))
    ∨ (e = PyError.typeError "getcwd() takes no arguments (1 given)"
        ∧ pyTruthy mi = true)
    ∨ (e = PyError.indexError "list index out of range" ∧ sf = Sum.inr []) := by
  cases sf with
  | inl s =>
    simp only [fill_volume_with_surface_labels] at h
    simp at h
    exact ((fillTail_error_shape _ _ _ _ _ _ _ _ _ h).elim Or.inl
      (fun hb => Or.inr (Or.inl hb)))
  | inr l =>
    rcases l with _ | ⟨s0, rest⟩
    · simp only [fill_volume_with_surface_labels] at h
      simp at h
      exact Or.inr (Or.inr ⟨h.symm, rfl⟩)
    · by_cases hl : (s0 :: rest).length = 2
      · simp only [fill_volume_with_surface_labels, if_pos hl] at h
        exact ((fillTail_error_shape _ _ _ _ _ _ _ _ _ h).elim Or.inl
          (fun hb => Or.inr (Or.inl hb)))
      · simp only [fill_volume_with_surface_labels, if_neg hl] at h
        exact ((fillTail_error_shape _ _ _ _ _ _ _ _ _ h).elim Or.inl
          (fun hb => Or.inr (Or.inl hb)))

/-- Counterexample to C2 as stated: with `xfm_stem`, `affine_transform` and
`nonlinear_transform` all empty, `WarpImageMultiTransform` does not raise an
`IOError` about a missing output file — it calls `sys.exit`, terminating the
interpreter with a usage message (`SystemExit`). -/
theorem warp_sysexit_counterexample :
    (WarpImageMultiTransform sysT fsAll "s.nii.gz" "t.nii.gz" "" "--use-NN"
        "" "" "" false false).result
      = Except.error (PyError.systemExit
          "Provide either xfm_stem or affine_transform and nonlinear_transform.") := by
  decide

/-- Claim C2 (amended): the failure behaviours of the module are exactly:
an `IOError` whose message is a path followed by `" not found"` when an
expected output file is missing; additionally `WarpImageMultiTransform`
calls `sys.exit` (SystemExit) when `xfm_stem`, `affine_transform` and
`nonlinear_transform` are all empty; `PropagateLabelsThroughMask` (and hence
`fill_volume_with_surface_labels`) raises `TypeError` when `mask_index` is
truthy (the `os.getcwd('temp.nii.gz')` slip); and
`fill_volume_with_surface_labels` raises `IndexError` on an empty list of
surface files.  No other failure mechanism exists. -/
theorem module_failure_modes (sys : Sys) (fs : String → Bool)
    (v1 v2 op o1 : String)
    (src tgt iters stem : String)
    (s2 t2 o2 itp xs af nl : String) (inv aon : Bool)
    (mv lv o3 : String) (mi : Option Int) (b : Bool)
    (vm : String) (sf : Sum String (List String)) (mi2 : Option Int)
    (o4 : String) (b2 : Bool) :
    (∀ e, (ImageMath sys fs v1 v2 op o1).result = Except.error e →
       ∃ p, e = PyError.ioError (p ++ " not found"))
    ∧ (∀ e, (ANTS sys fs src tgt iters stem).result = Except.error e →
       ∃ p, e = PyError.ioError (p ++ " not found"))
    ∧ (∀ e, (WarpImageMultiTransform sys fs s2 t2 o2 itp xs af nl inv aon).result
              = Except.error e →
       (∃ p, e = PyError.ioError (p ++ " not found"))
       ∨ (e = PyError.systemExit
            ("Provide either xfm_stem or affine_transform and " ++ "nonlinear_transform.")
          ∧ xs = "" ∧ af = "" ∧ nl = ""))
    ∧ (∀ e, (PropagateLabelsThroughMask sys fs mv lv mi o3 b).result = Except.error e →
       (∃ p, e = PyError.ioError (p ++ " not found"))
       ∨ (e = PyError.typeError "getcwd() takes no arguments (1 given)"
          ∧ pyTruthy mi = true))
    ∧ (∀ e, (fill_volume_with_surface_labels sys fs vm sf mi2 o4 b2).result
              = Except.error e →
       (∃ p, e = PyError.ioError (p ++ " not found"))
       ∨ (e = PyError.typeError "getcwd() takes no arguments (1 given)"
          ∧ pyTruthy mi2 = true)
       ∨ (e = PyError.indexError "list index out of range" ∧ sf = Sum.inr [])) :=
  ⟨fun _ h => ImageMath_error_shape sys fs v1 v2 op o1 _ h,
   fun _ h => ANTS_error_shape sys fs src tgt iters stem _ h,
   fun _ h => WarpImageMultiTransform_error_shape sys fs s2 t2 o2 itp xs af nl inv aon _ h,
   fun _ h => PropagateLabelsThroughMask_error_shape sys fs mv lv mi o3 b _ h,
   fun _ h => fill_error_shape sys fs vm sf mi2 o4 b2 _ h⟩

/-- Witness for the amended C2: the `TypeError` failure mode, realized at a
concrete truthy `mask_index`. -/
theorem module_failure_modes_witness :
    (∃ p, PyError.typeError "getcwd() takes no arguments (1 given)"
            = PyError.ioError (p ++ " not found"))
    ∨ (PyError.typeError "getcwd() takes no arguments (1 given)"
         = PyError.typeError "getcwd() takes no arguments (1 given)"
       ∧ pyTruthy (some 1) = true) := by
  exact (module_failure_modes sysT fsAll "a.nii.gz" "b.nii.gz" "m" ""
    "s" "t" "30x99x11" "" "s2" "t2" "" "--use-NN" "stemX" "" "" false false
    "m.nii.gz" "l.nii.gz" "" (some 1) true
    "vm.nii.gz" (Sum.inl "lh.vtk") none "" false).2.2.2.1
    (PyError.typeError "getcwd() takes no arguments (1 given)") (by decide)
